import Mathlib

/-!
Verification of the semantic-projection layer of a ShExC compact-syntax
translator (`parser_context.py`): prefix/base resolution, IRI resolution,
escape-sequence decoding (string dialect and regex dialect), and literal
construction.  Python strings are modelled as `List Char` (Python indexing
and slicing is by code point), Python `None`-able results and raised
exceptions as `Option`, and Python dicts as association lists.
-/

/-- Translation table `str.maketrans('bfnrt', '\b\f\n\r\t')` (`re_trans_table`):
the letters b, f, n, r, t map to backspace, form-feed, newline,
carriage-return and tab; every other character maps to itself. -/
def transTable (c : Char) : Char :=
  if c = 'b' then '\x08'
  else if c = 'f' then '\x0c'
  else if c = 'n' then '\n'
  else if c = 'r' then '\r'
  else if c = 't' then '\t'
  else c

/-- The scan performed by `re.sub(r'\\.', subf, txt)` with DOTALL semantics:
walk the text left to right; at a backslash followed by any character, emit
`f` of the character after the backslash (the replacement for the
two-character match) and continue after the pair; a backslash at the very
end of the text matches nothing and is kept. -/
def escScan (f : Char → List Char) : List Char → List Char
  | [] => []
  | [c] => [c]
  | c :: d :: rest =>
    if c = '\\' then f d ++ escScan f rest
    else c :: escScan f (d :: rest)

/-- The scan performed by `re.sub(r'\\' + quote_char, quote_char, txt)`:
each backslash-quote pair is replaced by the bare quote character. -/
def quoteUnescape (q : Char) : List Char → List Char
  | [] => []
  | [c] => [c]
  | c :: d :: rest =>
    if c = '\\' ∧ d = q then q :: quoteUnescape q rest
    else c :: quoteUnescape q (d :: rest)

/-- Embeds `ParserContext.fix_text_escapes(txt, quote_char)`.  The Python
`quote_char` is either a one-character string or the empty string, modelled
as `Option Char`.  Step 1 replaces escaped quote characters by the bare
quote; step 2 substitutes every backslash-character pair by
`pair.translate(re_trans_table)` - `translate` acts per character, so the
leading backslash (not a key of the table) is kept and only the character
after it is translated. -/
def fix_text_escapes (txt : List Char) (quote_char : Option Char) : List Char :=
  escScan (fun d => ['\\', transTable d])
    (match quote_char with
     | some q => quoteUnescape q txt
     | none => txt)

/-- The rendering `'bfntr'['\b\f\n\t\r'.index(c)]` used by `fix_re_escapes`:
each of the five control characters maps back to its escape letter. -/
def ctrlLetter (c : Char) : Char :=
  if c = '\x08' then 'b'
  else if c = '\x0c' then 'f'
  else if c = '\n' then 'n'
  else if c = '\t' then 't'
  else if c = '\r' then 'r'
  else c

/-- The characters of the Python string literal containing the regex
metacharacters backslash, dot, question mark, star, plus, caret, dollar,
parentheses, square brackets, open brace, bar, close brace. -/
def reMetaChars : List Char :=
  ['\\', '.', '?', '*', '+', '^', '$', '(', ')', '[', ']', '\x7b', '|', '\x7d']

/-- The replacement function `_subf` of `fix_re_escapes` applied to a
backslash-character pair: translate the pair through `re_trans_table`
(which keeps the backslash and translates the trailing character); if the
translated trailing character is one of the five control characters,
re-render the pair as backslash plus the corresponding escape letter;
otherwise keep the pair when the trailing character is a regex
metacharacter, and drop the backslash when it is not. -/
def reSubPair (d : Char) : List Char :=
  let t := transTable d
  if t = '\x08' ∨ t = '\x0c' ∨ t = '\n' ∨ t = '\t' ∨ t = '\r' then ['\\', ctrlLetter t]
  else if reMetaChars.contains t then ['\\', t]
  else [t]

/-- Embeds `ParserContext.fix_re_escapes(txt)`. -/
def fix_re_escapes (txt : List Char) : List Char :=
  escScan reSubPair txt

example : fix_text_escapes ['\\', 'n'] none = ['\\', '\n'] := by decide

example : fix_text_escapes ['a', '\\', 'n', 'b'] none = ['a', '\\', '\n', 'b'] := by decide

example : fix_text_escapes ['\\', '\x27', 'a'] (some '\x27') = ['\x27', 'a'] := by decide

example : fix_re_escapes ['\\', '\n'] = ['\\', 'n'] := by decide

example : fix_re_escapes ['\\', 'n'] = ['\\', 'n'] := by decide

example : fix_re_escapes ['\\', 'q'] = ['q'] := by decide

example : fix_re_escapes ['\\', '.'] = ['\\', '.'] := by decide

example : fix_re_escapes (fix_text_escapes ['\\', 'b'] none) = ['\\', 'b'] := by decide

/-- Embeds the mutable fields of `ParserContext` that the resolution
operations read: the user prefix table, the JSON-LD reserved prefix table
(`ld_prefixes`), and the optional base IRI.  Dicts are association lists;
`base` is `none` when unset (Python `None`). -/
structure ParserContext where
  ld_prefixes : List (String × String)
  prefixes : List (String × String)
  base : Option String
deriving DecidableEq

/-- Python dict lookup on an association list: `dictFind d k` is
`d[k]` when `k` is a key of `d` and `none` otherwise (so `d.get(k, v)` is
`(dictFind d k).getD v` and `k in d` is `(dictFind d k).isSome`). -/
def dictFind (d : List (String × String)) (k : String) : Option String :=
  (d.find? (fun kv => kv.fst == k)).map (fun kv => kv.snd)

/-- Embeds `ParserContext._lookup_prefix(prefix)`: empty prefix returns the
base (possibly unset); otherwise the reserved `ld_prefixes` table is
consulted first, and finally the user table with default empty string. -/
def lookupPrefix (ctx : ParserContext) (pfx : String) : Option String :=
  if pfx.length = 0 then ctx.base
  else
    match dictFind ctx.ld_prefixes pfx with
    | some v => some v
    | none => some ((dictFind ctx.prefixes pfx).getD "")

/-- UTF-8 encoding of one character, modelling Python `str.encode('utf-8')`
character by character. -/
def utf8EncodeChar (c : Char) : List Nat :=
  let n := c.toNat
  if n < 128 then [n]
  else if n < 2048 then [192 + n / 64, 128 + n % 64]
  else if n < 65536 then [224 + n / 4096, 128 + n / 64 % 64, 128 + n % 64]
  else [240 + n / 262144, 128 + n / 4096 % 64, 128 + n / 64 % 64, 128 + n % 64]

/-- Value of an ASCII hex digit byte, else `none`. -/
def hexDigitVal (b : Nat) : Option Nat :=
  if 48 ≤ b ∧ b ≤ 57 then some (b - 48)
  else if 97 ≤ b ∧ b ≤ 102 then some (b - 87)
  else if 65 ≤ b ∧ b ≤ 70 then some (b - 55)
  else none

/-- Value of an ASCII octal digit byte, else `none`. -/
def octDigitVal (b : Nat) : Option Nat :=
  if 48 ≤ b ∧ b ≤ 55 then some (b - 48) else none

/-- Model of Python `bytes.decode('unicode-escape')`.  Non-escape bytes are
decoded as Latin-1; backslash escapes follow the Python string-literal
rules: line continuation, the single-character escapes, one- to
three-digit octal escapes, `\xHH`, `\uHHHH`, `\UHHHHHHHH`; an unknown
escape keeps both the backslash and the character; a trailing lone
backslash and malformed hex escapes raise, modelled as `none`.  Named
escapes (backslash-N, needing the Unicode name database) and surrogate
code points (which Lean `Char` cannot carry) are outside the model; no
theorem below depends on those cases. -/
def uescStep (b : Nat) (tail : List Nat) : Option (List Char × List Nat) :=
  if b ≠ 92 then some ([Char.ofNat b], tail)
  else
    match tail with
    | [] => none
    | e :: rest =>
      if e = 10 then some ([], rest)
      else if e = 92 then some (['\\'], rest)
      else if e = 39 then some (['\x27'], rest)
      else if e = 34 then some (['"'], rest)
      else if e = 98 then some (['\x08'], rest)
      else if e = 102 then some (['\x0c'], rest)
      else if e = 116 then some (['\t'], rest)
      else if e = 110 then some (['\n'], rest)
      else if e = 114 then some (['\r'], rest)
      else if e = 118 then some (['\x0b'], rest)
      else if e = 97 then some (['\x07'], rest)
      else
        match octDigitVal e with
        | some d1 =>
          match rest with
          | [] => some ([Char.ofNat d1], [])
          | b2 :: rest2 =>
            match octDigitVal b2 with
            | none => some ([Char.ofNat d1], rest)
            | some d2 =>
              match rest2 with
              | [] => some ([Char.ofNat (d1 * 8 + d2)], [])
              | b3 :: rest3 =>
                match octDigitVal b3 with
                | none => some ([Char.ofNat (d1 * 8 + d2)], rest2)
                | some d3 => some ([Char.ofNat (d1 * 64 + d2 * 8 + d3)], rest3)
        | none =>
          if e = 120 then
            match rest with
            | b1 :: b2 :: rest2 =>
              match hexDigitVal b1, hexDigitVal b2 with
              | some h1, some h2 => some ([Char.ofNat (h1 * 16 + h2)], rest2)
              | _, _ => none
            | _ => none
          else if e = 117 then
            match rest with
            | b1 :: b2 :: b3 :: b4 :: rest2 =>
              match hexDigitVal b1, hexDigitVal b2, hexDigitVal b3, hexDigitVal b4 with
              | some h1, some h2, some h3, some h4 =>
                some ([Char.ofNat (h1 * 4096 + h2 * 256 + h3 * 16 + h4)], rest2)
              | _, _, _, _ => none
            | _ => none
          else if e = 85 then
            match rest with
            | b1 :: b2 :: b3 :: b4 :: b5 :: b6 :: b7 :: b8 :: rest2 =>
              match hexDigitVal b1, hexDigitVal b2, hexDigitVal b3, hexDigitVal b4 with
              | some h1, some h2, some h3, some h4 =>
                match hexDigitVal b5, hexDigitVal b6, hexDigitVal b7, hexDigitVal b8 with
                | some h5, some h6, some h7, some h8 =>
                  let v := ((((((h1 * 16 + h2) * 16 + h3) * 16 + h4) * 16 + h5) * 16 + h6)
                    * 16 + h7) * 16 + h8
                  if v < 1114112 then some ([Char.ofNat v], rest2) else none
                | _, _, _, _ => none
              | _, _, _, _ => none
            | _ => none
          else if e = 78 then none
          else some (['\\', Char.ofNat e], rest)

/-- Fuel-bounded decoding loop: decode one byte or escape sequence with
`uescStep` and recurse on the remainder.  Every step consumes at least one
byte, so fuel equal to the byte count suffices and the fuel-out branch is
never reached. -/
def uescDecodeAux : Nat → List Nat → Option (List Char)
  | _, [] => some []
  | 0, _ :: _ => none
  | fuel + 1, b :: tail =>
    match uescStep b tail with
    | none => none
    | some (cs, rem) => (uescDecodeAux fuel rem).map (fun l => cs ++ l)

/-- Entry point of the unicode-escape model. -/
def uescDecode (l : List Nat) : Option (List Char) :=
  uescDecodeAux l.length l

/-- The escape decoding that `iriref_to_str` applies to the text between the
angle brackets: `body.encode('utf-8').decode('unicode-escape')`. -/
def irirefEscapeDecode (body : List Char) : Option (List Char) :=
  uescDecode (body.flatMap utf8EncodeChar)

/-- Embeds `ParserContext.iriref_to_str(ref)`: strip the angle-bracket
delimiters (`getText()[1:-1]`), decode escapes with the unicode-escape
codec, then return the decoded text if it contains a colon or no base IRI
is set, and the base concatenated with the decoded text otherwise.  A
decoding error (a raised exception) is `none`. -/
def iriref_to_str (ctx : ParserContext) (refText : String) : Option String :=
  match irirefEscapeDecode ((refText.data.drop 1).take (refText.data.length - 2)) with
  | none => none
  | some rval =>
    if rval.contains ':' then some (String.mk rval)
    else
      match ctx.base with
      | none => some (String.mk rval)
      | some b => some (b ++ String.mk rval)

example : iriref_to_str ⟨[], [], none⟩ "<http://x/y>" = some "http://x/y" := by decide

example : iriref_to_str ⟨[], [], some "http://b/"⟩ "<rel>" = some "http://b/rel" := by decide

example : irirefEscapeDecode ['\\', 'u', '0', '0', '4', '1'] = some ['A'] := by decide

example : irirefEscapeDecode ['\\', 'n'] = some ['\n'] := by decide

/-- Helper for Python `s.split(':', 1)` followed by two-variable unpacking:
splits at the first colon; `none` when there is no colon (where Python
unpacking would raise). -/
def splitColonAux : List Char → Option (List Char × List Char)
  | [] => none
  | c :: rest =>
    if c = ':' then some ([], rest)
    else (splitColonAux rest).map (fun p => (c :: p.1, p.2))

/-- String-level wrapper for `splitColonAux`. -/
def splitFirstColon (s : String) : Option (String × String) :=
  (splitColonAux s.data).map (fun p => (String.mk p.1, String.mk p.2))

/-- A `prefixedName` syntax node: exactly one of the two token alternatives
is populated, carrying its raw text. -/
inductive PrefixedNameNode where
  | PNAME_NS (text : String)
  | PNAME_LN (text : String)
deriving DecidableEq

/-- Embeds `ParserContext.prefixedname_to_str(prefix)`: the bare-prefix
alternative is looked up whole; the prefix+local alternative is split at
the first colon, the prefix (with colon restored) looked up, and the local
part appended (`local if local else ''` in the source, which is the
identity on strings). -/
def prefixedname_to_str (ctx : ParserContext) : PrefixedNameNode → Option String
  | .PNAME_NS t => lookupPrefix ctx t
  | .PNAME_LN t =>
    match splitFirstColon t with
    | none => none
    | some (pre, loc) =>
      (lookupPrefix ctx (pre ++ ":")).map
        (fun ns => ns ++ (if loc = "" then "" else loc))

/-- An `iri` syntax node: `IRIREF | prefixedName`. -/
inductive IriNode where
  | IRIREF (text : String)
  | prefixedName (n : PrefixedNameNode)
deriving DecidableEq

/-- Embeds `ParserContext.iri_to_str(iri_)`: dispatch on which alternative
the node carries. -/
def iri_to_str (ctx : ParserContext) : IriNode → Option String
  | .IRIREF t => iriref_to_str ctx t
  | .prefixedName n => prefixedname_to_str ctx n

/-- A `numericLiteral` syntax node: `INTEGER | DECIMAL | DOUBLE`. -/
inductive NumericLiteralNode where
  | INTEGER (text : String)
  | DECIMAL (text : String)
  | DOUBLE (text : String)
deriving DecidableEq

/-- Result type of `numeric_literal_to_type`: `jsg.Integer` or `jsg.Number`,
each wrapping the canonicalized text. -/
inductive JsgNumber where
  | Integer (val : String)
  | Number (val : String)
deriving DecidableEq

/-- ASCII fragment of Python `str.lower()` (every token this layer
lower-cases - language tags and boolean literals - is ASCII). -/
def pyLowerChar (c : Char) : Char :=
  if 'A' ≤ c ∧ c ≤ 'Z' then Char.ofNat (c.toNat + 32) else c

/-- Python `str.lower()` over a character list. -/
def pyLower (l : List Char) : List Char :=
  l.map pyLowerChar

/-- Accumulator loop for decimal-digit parsing. -/
def digitsValAux (acc : Nat) : List Char → Option Nat
  | [] => some acc
  | c :: rest =>
    if '0' ≤ c ∧ c ≤ '9' then digitsValAux (acc * 10 + (c.toNat - 48)) rest
    else none

/-- Value of a non-empty all-decimal-digit character list, else `none`. -/
def digitsVal : List Char → Option Nat
  | [] => none
  | l => digitsValAux 0 l

/-- Model of Python `int(text)` on the optional-sign digit strings produced
by the INTEGER token (whitespace and underscore forms, which the token
cannot contain, are not modelled); `none` models a raised ValueError. -/
def pyIntParse (s : String) : Option Int :=
  match s.data with
  | '+' :: ds => (digitsVal ds).map (fun n => (n : Int))
  | '-' :: ds => (digitsVal ds).map (fun n => -(n : Int))
  | ds => (digitsVal ds).map (fun n => (n : Int))

/-- Python `str` of an int: sign (for negatives) followed by the digits
with no leading zeros, which is exactly Lean's `Int` printing. -/
def pyIntRepr (n : Int) : String :=
  toString n

/-- Embeds the static method `ParserContext.numeric_literal_to_type`.
The composite Python builtin `str(float(text))` - IEEE-754 double parsing
followed by shortest round-trip formatting - is a parameter `pyFloatStr`
of the model (with `none` for a raised ValueError); the integer round-trip
`str(int(text))` is modelled concretely. -/
def numeric_literal_to_type (pyFloatStr : String → Option String) :
    NumericLiteralNode → Option JsgNumber
  | .INTEGER t => (pyIntParse t).map (fun n => JsgNumber.Integer (pyIntRepr n))
  | .DECIMAL t => (pyFloatStr t).map JsgNumber.Number
  | .DOUBLE t => (pyFloatStr t).map JsgNumber.Number

/-- `str(XSD.integer)`. -/
def RDF_INTEGER_TYPE : String := "http://www.w3.org/2001/XMLSchema#integer"

/-- `str(XSD.double)`. -/
def RDF_DOUBLE_TYPE : String := "http://www.w3.org/2001/XMLSchema#double"

/-- `str(XSD.decimal)`. -/
def RDF_DECIMAL_TYPE : String := "http://www.w3.org/2001/XMLSchema#decimal"

/-- `str(XSD.boolean)`. -/
def RDF_BOOL_TYPE : String := "http://www.w3.org/2001/XMLSchema#boolean"

/-- An `rdfLiteral` syntax node: the raw text of its string child, the
optional LANGTAG token text (including the leading at-sign), and the
optional datatype `iri` child. -/
structure RdfLiteralNode where
  stringText : String
  langtag : Option String
  datatype : Option IriNode
deriving DecidableEq

/-- A `literal` syntax node: `rdfLiteral | numericLiteral | booleanLiteral`;
`empty` models a node in which none of the three alternatives is
populated. -/
inductive LiteralNode where
  | rdfLiteral (n : RdfLiteralNode)
  | numericLiteral (n : NumericLiteralNode)
  | booleanLiteral (text : String)
  | empty
deriving DecidableEq

/-- `ShExJ.ObjectLiteral`: all three fields are unset (`None`) when the
record is freshly constructed. -/
structure ObjectLiteral where
  value : Option String := none
  type : Option String := none
  language : Option String := none
deriving DecidableEq

/-- `txt.take 3 == [q, q, q]`, i.e. Python `txt.startswith(q * 3)`. -/
def startsWith3 (q : Char) (txt : List Char) : Bool :=
  txt.take 3 == [q, q, q]

/-- Python `txt.endswith(q * 3)` (the last three characters, reversed or
not, form the same triple). -/
def endsWith3 (q : Char) (txt : List Char) : Bool :=
  txt.reverse.take 3 == [q, q, q]

/-- The delimiter test of the rdfLiteral branch:
`len(txt) > 5 and (startswith triple-apostrophe and endswith it, or
startswith triple-double-quote and endswith it)`. -/
def tripleQuoted (txt : List Char) : Bool :=
  decide (5 < txt.length) &&
    (startsWith3 '\x27' txt && endsWith3 '\x27' txt ||
     startsWith3 '"' txt && endsWith3 '"' txt)

/-- Embeds `ParserContext.literal_to_ObjectLiteral(literal)`.  The
rdfLiteral branch strips triple-quote delimiters (`txt[3:-3]`) or the
single quote delimiter (`txt[1:-1]`, with `txt[0]` as the quote character
passed to the escape fixer - indexing an empty text would raise, modelled
as `none`), decodes with `fix_text_escapes`, lower-cases the language tag
after dropping its at-sign, and resolves the datatype IRI.  The numeric
branch stores the raw token text with the matching XML-Schema type; the
boolean branch lower-cases the token text; a node with no populated
alternative falls through and returns the untouched record. -/
def literal_to_ObjectLiteral (ctx : ParserContext) : LiteralNode → Option ObjectLiteral
  | .rdfLiteral n =>
    let txt := n.stringText.data
    let stripped : Option (List Char × Option Char) :=
      if tripleQuoted txt then some ((txt.drop 3).take (txt.length - 6), none)
      else
        match txt with
        | [] => none
        | q :: _ => some ((txt.drop 1).take (txt.length - 2), some q)
    match stripped with
    | none => none
    | some (body, qc) =>
      let v := String.mk (fix_text_escapes body qc)
      match n.datatype with
      | none =>
        some { value := some v,
               language := n.langtag.map (fun lt => String.mk (pyLower (lt.data.drop 1))),
               type := none }
      | some dt =>
        (iri_to_str ctx dt).map
          (fun ty => { value := some v,
                       language := n.langtag.map (fun lt => String.mk (pyLower (lt.data.drop 1))),
                       type := some ty })
  | .numericLiteral nl =>
    match nl with
    | .INTEGER t => some { value := some t, type := some RDF_INTEGER_TYPE }
    | .DECIMAL t => some { value := some t, type := some RDF_DECIMAL_TYPE }
    | .DOUBLE t => some { value := some t, type := some RDF_DOUBLE_TYPE }
  | .booleanLiteral t =>
    some { value := some (String.mk (pyLower t.data)), type := some RDF_BOOL_TYPE }
  | .empty => some {}

example :
    literal_to_ObjectLiteral ⟨[], [], none⟩
      (.rdfLiteral ⟨"\"\"\"a\\nb\"\"\"", none, none⟩) =
    some { value := some "a\\\nb", type := none, language := none } := by decide

example :
    literal_to_ObjectLiteral ⟨[], [], none⟩ (.rdfLiteral ⟨"\"ab\"", none, none⟩) =
    some { value := some "ab", type := none, language := none } := by decide

example :
    literal_to_ObjectLiteral ⟨[], [], none⟩ (.rdfLiteral ⟨"'x'", some "@EN-us", none⟩) =
    some { value := some "x", type := none, language := some "en-us" } := by decide

example :
    literal_to_ObjectLiteral ⟨[], [], none⟩ (.booleanLiteral "True") =
    some { value := some "true", type := some RDF_BOOL_TYPE, language := none } := by decide

example :
    numeric_literal_to_type (fun _ => none) (.INTEGER "042") =
    some (JsgNumber.Integer "42") := by decide

example :
    numeric_literal_to_type (fun _ => none) (.INTEGER "-042") =
    some (JsgNumber.Integer "-42") := by decide

example :
    literal_to_ObjectLiteral ⟨[], [], none⟩ (.numericLiteral (.INTEGER "042")) =
    some { value := some "042", type := some RDF_INTEGER_TYPE, language := none } := by decide

example : literal_to_ObjectLiteral ⟨[], [], none⟩ .empty = some {} := by decide

example :
    prefixedname_to_str ⟨[], [("ex:", "http://ex/")], none⟩ (.PNAME_LN "ex:foo") =
    some "http://ex/foo" := by decide

example :
    prefixedname_to_str ⟨[], [("ex:", "http://ex/")], none⟩ (.PNAME_NS "ex:") =
    some "http://ex/" := by decide

theorem escScan_pair (f : Char → List Char) (d : Char) (rest : List Char) :
    escScan f ('\\' :: d :: rest) = f d ++ escScan f rest := by
  simp [escScan]

theorem escScan_cons (f : Char → List Char) (c : Char) (rest : List Char) (h : c ≠ '\\') :
    escScan f (c :: rest) = c :: escScan f rest := by
  cases rest with
  | nil => rfl
  | cons d t => simp [escScan, h]

theorem escScan_no_backslash (f : Char → List Char) :
    ∀ l : List Char, '\\' ∉ l → escScan f l = l := by
  intro l
  induction l with
  | nil => intro _; rfl
  | cons c t ih =>
    intro h
    rw [List.mem_cons, not_or] at h
    rw [escScan_cons f c t (fun hc => h.1 hc.symm), ih h.2]

theorem fix_text_escapes_pair (c : Char) (rest : List Char) :
    fix_text_escapes ('\\' :: c :: rest) none =
      '\\' :: transTable c :: fix_text_escapes rest none :=
  escScan_pair _ c rest

/-- C1 (amended): with a quote character, `fix_text_escapes` first replaces
every backslash-quote pair by the bare quote character, then runs the same
pair scan as the quoteless form; that scan translates the character after
each backslash through the table - b, f, n, r, t becoming the
corresponding control characters - while keeping the leading backslash,
and leaves every other backslash-character pair (backslash included)
unchanged rather than dropping the backslash. -/
theorem claim_C1_amended_theorem :
    (∀ (q : Char) (txt : List Char),
        fix_text_escapes txt (some q) = fix_text_escapes (quoteUnescape q txt) none)
    ∧ (∀ (q : Char) (rest : List Char),
        quoteUnescape q ('\\' :: q :: rest) = q :: quoteUnescape q rest)
    ∧ (∀ rest : List Char,
        fix_text_escapes ('\\' :: 'b' :: rest) none =
          '\\' :: '\x08' :: fix_text_escapes rest none)
    ∧ (∀ rest : List Char,
        fix_text_escapes ('\\' :: 'f' :: rest) none =
          '\\' :: '\x0c' :: fix_text_escapes rest none)
    ∧ (∀ rest : List Char,
        fix_text_escapes ('\\' :: 'n' :: rest) none =
          '\\' :: '\n' :: fix_text_escapes rest none)
    ∧ (∀ rest : List Char,
        fix_text_escapes ('\\' :: 'r' :: rest) none =
          '\\' :: '\r' :: fix_text_escapes rest none)
    ∧ (∀ rest : List Char,
        fix_text_escapes ('\\' :: 't' :: rest) none =
          '\\' :: '\t' :: fix_text_escapes rest none)
    ∧ (∀ (c : Char) (rest : List Char),
        c ∉ (['b', 'f', 'n', 'r', 't'] : List Char) →
        fix_text_escapes ('\\' :: c :: rest) none = '\\' :: c :: fix_text_escapes rest none)
    ∧ (∀ (c : Char) (rest : List Char), c ≠ '\\' →
        fix_text_escapes (c :: rest) none = c :: fix_text_escapes rest none)
    ∧ fix_text_escapes [] none = [] := by
  refine ⟨fun q txt => rfl, fun q rest => by simp [quoteUnescape], ?_, ?_, ?_, ?_, ?_, ?_, ?_, rfl⟩
  · intro rest
    rw [fix_text_escapes_pair, show transTable 'b' = '\x08' from by decide]
  · intro rest
    rw [fix_text_escapes_pair, show transTable 'f' = '\x0c' from by decide]
  · intro rest
    rw [fix_text_escapes_pair, show transTable 'n' = '\n' from by decide]
  · intro rest
    rw [fix_text_escapes_pair, show transTable 'r' = '\r' from by decide]
  · intro rest
    rw [fix_text_escapes_pair, show transTable 't' = '\t' from by decide]
  · intro c rest h
    simp only [List.mem_cons, not_or] at h
    obtain ⟨hb, hf, hn, hr, ht, -⟩ := h
    rw [fix_text_escapes_pair, show transTable c = c from by simp [transTable, hb, hf, hn, hr, ht]]
  · intro c rest h
    exact escScan_cons _ c rest h

/-- C1 counterexample: on the text backslash-n with no quote character,
`fix_text_escapes` keeps the backslash and yields backslash followed by a
control newline, not the single newline character the claim demands. -/
theorem claim_C1_counterexample :
    fix_text_escapes ['\\', 'n'] none = ['\\', '\n'] ∧
    fix_text_escapes ['\\', 'n'] none ≠ ['\n'] := by decide

/-- Witness for C1: the amended theorem applied at concrete inputs. -/
theorem claim_C1_witness :
    fix_text_escapes ['\\', 'x'] none = '\\' :: 'x' :: fix_text_escapes [] none ∧
    fix_text_escapes ['a'] none = 'a' :: fix_text_escapes [] none :=
  ⟨claim_C1_amended_theorem.2.2.2.2.2.2.2.1 'x' [] (by decide),
   claim_C1_amended_theorem.2.2.2.2.2.2.2.2.1 'a' [] (by decide)⟩

theorem transTable_eq_self (c : Char)
    (h : ¬(transTable c = '\x08' ∨ transTable c = '\x0c' ∨ transTable c = '\n' ∨
      transTable c = '\t' ∨ transTable c = '\r')) : transTable c = c := by
  by_cases hb : c = 'b'
  · subst hb; exact absurd (by decide) h
  by_cases hf : c = 'f'
  · subst hf; exact absurd (by decide) h
  by_cases hn : c = 'n'
  · subst hn; exact absurd (by decide) h
  by_cases hr : c = 'r'
  · subst hr; exact absurd (by decide) h
  by_cases ht : c = 't'
  · subst ht; exact absurd (by decide) h
  simp [transTable, hb, hf, hn, hr, ht]

theorem fix_re_escapes_pair (c : Char) (rest : List Char) :
    fix_re_escapes ('\\' :: c :: rest) = reSubPair c ++ fix_re_escapes rest :=
  escScan_pair reSubPair c rest

/-- C3: `fix_re_escapes` rewrites each backslash-character pair as follows:
when the character after the backslash is, after table translation, one of
the five control characters (backspace, form-feed, newline, tab,
carriage-return), the pair is re-rendered as backslash plus the matching
escape letter b, f, n, t, r; otherwise, when it is one of the regex
metacharacters, the pair is kept unchanged; otherwise the backslash is
dropped and the character kept; text outside pairs is copied. -/
theorem claim_C3_theorem :
    (∀ (c : Char) (rest : List Char),
        (transTable c = '\x08' ∨ transTable c = '\x0c' ∨ transTable c = '\n' ∨
         transTable c = '\t' ∨ transTable c = '\r') →
        fix_re_escapes ('\\' :: c :: rest) =
          '\\' :: ctrlLetter (transTable c) :: fix_re_escapes rest)
    ∧ ctrlLetter '\x08' = 'b' ∧ ctrlLetter '\x0c' = 'f' ∧ ctrlLetter '\n' = 'n'
    ∧ ctrlLetter '\t' = 't' ∧ ctrlLetter '\r' = 'r'
    ∧ (∀ (c : Char) (rest : List Char),
        ¬(transTable c = '\x08' ∨ transTable c = '\x0c' ∨ transTable c = '\n' ∨
          transTable c = '\t' ∨ transTable c = '\r') →
        reMetaChars.contains c = true →
        fix_re_escapes ('\\' :: c :: rest) = '\\' :: c :: fix_re_escapes rest)
    ∧ (∀ (c : Char) (rest : List Char),
        ¬(transTable c = '\x08' ∨ transTable c = '\x0c' ∨ transTable c = '\n' ∨
          transTable c = '\t' ∨ transTable c = '\r') →
        reMetaChars.contains c = false →
        fix_re_escapes ('\\' :: c :: rest) = c :: fix_re_escapes rest)
    ∧ (∀ (c : Char) (rest : List Char), c ≠ '\\' →
        fix_re_escapes (c :: rest) = c :: fix_re_escapes rest)
    ∧ fix_re_escapes [] = [] := by
  refine ⟨?_, by decide, by decide, by decide, by decide, by decide, ?_, ?_,
    fun c rest h => escScan_cons reSubPair c rest h, rfl⟩
  · intro c rest h
    rw [fix_re_escapes_pair, reSubPair, if_pos h]
    rfl
  · intro c rest h hm
    rw [fix_re_escapes_pair, reSubPair, if_neg h, transTable_eq_self c h, if_pos hm]
    rfl
  · intro c rest h hm
    rw [fix_re_escapes_pair, reSubPair, if_neg h, transTable_eq_self c h]
    rw [hm]
    rfl

/-- Witness for C3: the theorem applied at concrete pairs - a letter escape,
a kept metacharacter escape, a dropped ordinary escape, and plain text. -/
theorem claim_C3_witness :
    fix_re_escapes ['\\', 'n'] = '\\' :: ctrlLetter (transTable 'n') :: fix_re_escapes [] ∧
    fix_re_escapes ['\\', '.'] = '\\' :: '.' :: fix_re_escapes [] ∧
    fix_re_escapes ['\\', 'q'] = 'q' :: fix_re_escapes [] ∧
    fix_re_escapes ['z'] = 'z' :: fix_re_escapes [] :=
  ⟨claim_C3_theorem.1 'n' [] (by decide),
   claim_C3_theorem.2.2.2.2.2.2.1 '.' [] (by decide) (by decide),
   claim_C3_theorem.2.2.2.2.2.2.2.1 'q' [] (by decide) (by decide),
   claim_C3_theorem.2.2.2.2.2.2.2.2.1 'z' [] (by decide)⟩

/-- C4: for each of the five letter escapes, `fix_re_escapes` applied to the
output of `fix_text_escapes` on that escape restores the original
two-character letter-escape form; and on text containing no backslash
(hence no escape pair) `fix_re_escapes` is the identity. -/
theorem claim_C4_theorem :
    fix_re_escapes (fix_text_escapes ['\\', 'b'] none) = ['\\', 'b'] ∧
    fix_re_escapes (fix_text_escapes ['\\', 'f'] none) = ['\\', 'f'] ∧
    fix_re_escapes (fix_text_escapes ['\\', 'n'] none) = ['\\', 'n'] ∧
    fix_re_escapes (fix_text_escapes ['\\', 'r'] none) = ['\\', 'r'] ∧
    fix_re_escapes (fix_text_escapes ['\\', 't'] none) = ['\\', 't'] ∧
    (∀ txt : List Char, '\\' ∉ txt → fix_re_escapes txt = txt) := by
  refine ⟨by decide, by decide, by decide, by decide, by decide, ?_⟩
  intro txt h
  exact escScan_no_backslash reSubPair txt h

/-- Witness for C4: the identity part applied to a concrete escape-free
text. -/
theorem claim_C4_witness :
    fix_re_escapes ['a', ':', 'z'] = ['a', ':', 'z'] :=
  claim_C4_theorem.2.2.2.2.2 ['a', ':', 'z'] (by decide)

theorem utf8EncodeChar_ascii (c : Char) (h : c.toNat < 128) :
    utf8EncodeChar c = [c.toNat] := by
  simp [utf8EncodeChar, h]

theorem uescStep_ne (b : Nat) (tail : List Nat) (h : b ≠ 92) :
    uescStep b tail = some ([Char.ofNat b], tail) := by
  unfold uescStep
  rw [if_pos h]

theorem uescDecodeAux_ascii (fuel : Nat) :
    ∀ l : List Char, l.length ≤ fuel → (∀ c ∈ l, c.toNat < 128 ∧ c.toNat ≠ 92) →
      uescDecodeAux fuel (l.flatMap utf8EncodeChar) = some l := by
  induction fuel with
  | zero =>
    intro l hl _
    cases l with
    | nil => rfl
    | cons c t => simp at hl
  | succ n ih =>
    intro l hl hc
    cases l with
    | nil => rfl
    | cons c t =>
      have hasc := hc c (List.mem_cons_self c t)
      rw [List.flatMap_cons, utf8EncodeChar_ascii c hasc.1]
      show uescDecodeAux (n + 1) (c.toNat :: t.flatMap utf8EncodeChar) = some (c :: t)
      rw [uescDecodeAux.eq_def]
      simp only []
      rw [uescStep_ne c.toNat (t.flatMap utf8EncodeChar) hasc.2]
      simp only []
      rw [ih t (Nat.le_of_succ_le_succ hl) (fun x hx => hc x (List.mem_cons_of_mem c hx))]
      simp [Char.ofNat_toNat]

theorem uesc_ascii (l : List Char) (h : ∀ c ∈ l, c.toNat < 128 ∧ c.toNat ≠ 92) :
    irirefEscapeDecode l = some l := by
  have hlen : ∀ m : List Char, (∀ c ∈ m, c.toNat < 128 ∧ c.toNat ≠ 92) →
      (m.flatMap utf8EncodeChar).length = m.length := by
    intro m
    induction m with
    | nil => intro _; rfl
    | cons c t ih =>
      intro hm
      rw [List.flatMap_cons, utf8EncodeChar_ascii c (hm c (List.mem_cons_self c t)).1,
        List.length_append, ih (fun x hx => hm x (List.mem_cons_of_mem c hx))]
      simp [Nat.add_comm]
  show uescDecodeAux (l.flatMap utf8EncodeChar).length (l.flatMap utf8EncodeChar) = some l
  rw [hlen l h]
  exact uescDecodeAux_ascii l.length l (Nat.le_refl _) h

/-- C5 counterexample: on the delimiter-stripped IRI body backslash-u-0-0-4-1
the bracketed-IRI decoding (Python unicode-escape) yields the single
character A, while the string-escape policy leaves the six characters
untouched - the two decoders are not the same function. -/
theorem claim_C5_counterexample :
    irirefEscapeDecode ['\\', 'u', '0', '0', '4', '1'] = some ['A'] ∧
    fix_text_escapes ['\\', 'u', '0', '0', '4', '1'] none = ['\\', 'u', '0', '0', '4', '1'] ∧
    (['A'] : List Char) ≠ ['\\', 'u', '0', '0', '4', '1'] := by decide

/-- C5 (amended): the escape decoding that `iriref_to_str` applies to the
delimiter-stripped IRI body is Python's unicode-escape codec, not the
string-escape policy `fix_text_escapes`; the two decoders agree on every
body made of ASCII characters containing no backslash (both are then the
identity), but differ on escape sequences. -/
theorem claim_C5_amended_theorem (l : List Char)
    (h : ∀ c ∈ l, c.toNat < 128 ∧ c.toNat ≠ 92) :
    irirefEscapeDecode l = some (fix_text_escapes l none) := by
  have hnb : '\\' ∉ l := fun hm => (h '\\' hm).2 (by decide)
  rw [show fix_text_escapes l none = l from escScan_no_backslash _ l hnb]
  exact uesc_ascii l h

/-- Witness for C5: the amended theorem applied to a concrete
backslash-free ASCII body. -/
theorem claim_C5_witness :
    irirefEscapeDecode ['a', 'b'] = some (fix_text_escapes ['a', 'b'] none) :=
  claim_C5_amended_theorem ['a', 'b'] (by decide)

/-- C6: after delimiter stripping and escape decoding to a text `rval`,
`iriref_to_str` returns `rval` unchanged when it contains a colon;
otherwise the base concatenated with `rval` when a base IRI is set;
otherwise `rval` unchanged - never a failure.  In particular the bracketed
IRI with colon resolves to itself with no base set, and a relative
reference is prefixed by the base. -/
theorem claim_C6_theorem :
    (∀ (ctx : ParserContext) (raw : String) (rval : List Char),
        irirefEscapeDecode ((raw.data.drop 1).take (raw.data.length - 2)) = some rval →
        iriref_to_str ctx raw =
          some (if rval.contains ':' then String.mk rval
                else
                  match ctx.base with
                  | none => String.mk rval
                  | some b => b ++ String.mk rval))
    ∧ iriref_to_str ⟨[], [], none⟩ "<http://x/y>" = some "http://x/y"
    ∧ iriref_to_str ⟨[], [], some "http://b/"⟩ "<rel>" = some "http://b/rel" := by
  refine ⟨?_, by decide, by decide⟩
  intro ctx raw rval h
  unfold iriref_to_str
  rw [h]
  by_cases hc : rval.contains ':' = true
  · have hm : ':' ∈ rval := by simpa using hc
    simp [hm]
  · have hm : ':' ∉ rval := by simpa using hc
    cases hb : ctx.base with
    | none => simp [hm]
    | some b => simp [hm, hb]

/-- Witness for C6: the dispatch theorem applied to a concrete relative
reference resolved against a set base. -/
theorem claim_C6_witness :
    iriref_to_str ⟨[], [], some "http://b/"⟩ "<rel>" = some "http://b/rel" := by
  have h := claim_C6_theorem.1 ⟨[], [], some "http://b/"⟩ "<rel>" ['r', 'e', 'l'] (by decide)
  exact h.trans (by decide)

/-- C7: `_lookup_prefix` returns the base (possibly absent, without
failing) for the empty prefix; for a non-empty prefix it returns the
reserved table's value when present - even when the user table also binds
the same prefix - and otherwise the user table's value with the empty
string as default for an absent key; the operation is total. -/
theorem claim_C7_theorem (ctx : ParserContext) (p v w : String) :
    lookupPrefix ctx "" = ctx.base
    ∧ (p ≠ "" → dictFind ctx.ld_prefixes p = some v → lookupPrefix ctx p = some v)
    ∧ (p ≠ "" → dictFind ctx.ld_prefixes p = some v → dictFind ctx.prefixes p = some w →
        lookupPrefix ctx p = some v)
    ∧ (p ≠ "" → dictFind ctx.ld_prefixes p = none →
        lookupPrefix ctx p = some ((dictFind ctx.prefixes p).getD "")) := by
  have hlen : p ≠ "" → ¬p.length = 0 := by
    intro hne h0
    cases p with
    | mk data =>
      cases data with
      | nil => exact hne rfl
      | cons c t => simp [String.length] at h0
  refine ⟨rfl, ?_, ?_, ?_⟩
  · intro hne hld
    unfold lookupPrefix
    rw [if_neg (hlen hne), hld]
  · intro hne hld _
    unfold lookupPrefix
    rw [if_neg (hlen hne), hld]
  · intro hne hld
    unfold lookupPrefix
    rw [if_neg (hlen hne), hld]

/-- Witness for C7: a prefix bound in both tables resolves to the reserved
table's value, and an unbound prefix resolves to the empty string. -/
theorem claim_C7_witness :
    lookupPrefix ⟨[("ex:", "http://res/")], [("ex:", "http://usr/")], none⟩ "ex:" =
      some "http://res/" ∧
    lookupPrefix ⟨[("ex:", "http://res/")], [("ex:", "http://usr/")], none⟩ "zz:" =
      some ((dictFind [("ex:", "http://usr/")] "zz:").getD "") :=
  ⟨(claim_C7_theorem ⟨[("ex:", "http://res/")], [("ex:", "http://usr/")], none⟩
      "ex:" "http://res/" "http://usr/").2.2.1 (by decide) (by decide) (by decide),
   (claim_C7_theorem ⟨[("ex:", "http://res/")], [("ex:", "http://usr/")], none⟩
      "zz:" "" "").2.2.2 (by decide) (by decide)⟩

/-- C8: the standalone `numeric_literal_to_type` canonicalizes - for an
INTEGER token by the integer round-trip `str(int(text))`, for DECIMAL and
DOUBLE tokens by the floating round-trip `str(float(text))` (the composite
builtin carried as the `pyFloatStr` parameter of the model) - whereas the
numeric path of `literal_to_ObjectLiteral` stores the raw token text
unchanged together with the matching XML-Schema datatype IRI; on the token
042 the two paths produce different texts. -/
theorem claim_C8_theorem (pyFloatStr : String → Option String) (ctx : ParserContext) :
    (∀ (t : String) (n : Int), pyIntParse t = some n →
        numeric_literal_to_type pyFloatStr (.INTEGER t) =
          some (JsgNumber.Integer (pyIntRepr n)))
    ∧ (∀ t : String, numeric_literal_to_type pyFloatStr (.DECIMAL t) =
        (pyFloatStr t).map JsgNumber.Number)
    ∧ (∀ t : String, numeric_literal_to_type pyFloatStr (.DOUBLE t) =
        (pyFloatStr t).map JsgNumber.Number)
    ∧ (∀ t : String, literal_to_ObjectLiteral ctx (.numericLiteral (.INTEGER t)) =
        some { value := some t, type := some RDF_INTEGER_TYPE, language := none })
    ∧ (∀ t : String, literal_to_ObjectLiteral ctx (.numericLiteral (.DECIMAL t)) =
        some { value := some t, type := some RDF_DECIMAL_TYPE, language := none })
    ∧ (∀ t : String, literal_to_ObjectLiteral ctx (.numericLiteral (.DOUBLE t)) =
        some { value := some t, type := some RDF_DOUBLE_TYPE, language := none })
    ∧ numeric_literal_to_type pyFloatStr (.INTEGER "042") = some (JsgNumber.Integer "42")
    ∧ literal_to_ObjectLiteral ctx (.numericLiteral (.INTEGER "042")) =
        some { value := some "042", type := some RDF_INTEGER_TYPE, language := none } := by
  refine ⟨?_, fun t => rfl, fun t => rfl, fun t => rfl, fun t => rfl, fun t => rfl, ?_, rfl⟩
  · intro t n h
    simp [numeric_literal_to_type, h]
  · show (pyIntParse "042").map (fun n => JsgNumber.Integer (pyIntRepr n)) =
      some (JsgNumber.Integer "42")
    decide

/-- Witness for C8: the theorem instantiated with a concrete float
round-trip stub and applied to concrete tokens; the integer branch is
discharged with a concrete parse. -/
theorem claim_C8_witness :
    numeric_literal_to_type (fun s => some s) (.INTEGER "007") =
      some (JsgNumber.Integer (pyIntRepr 7)) ∧
    numeric_literal_to_type (fun s => some s) (.DECIMAL "1.50") =
      ((fun s => some s) "1.50").map JsgNumber.Number :=
  ⟨(claim_C8_theorem (fun s => some s) ⟨[], [], none⟩).1 "007" 7 (by decide),
   (claim_C8_theorem (fun s => some s) ⟨[], [], none⟩).2.1 "1.50"⟩

/-- C2 (amended): on an RDF-literal node `literal_to_ObjectLiteral` strips
the detected delimiters (triple quotes versus the single leading quote
character), decodes the remainder with the string-escape policy
`fix_text_escapes` (passing the quote character, or none for triple-quoted
text), sets `value` to the decoded text, `language` to the lower-cased
language tag (sans at-sign) when present and `type` to the resolved
datatype IRI when present; the escape policy keeps backslashes, so the
triple-quoted example containing backslash-n yields the value a,
backslash, newline, b (not a, newline, b) with type and language unset. -/
theorem claim_C2_amended_theorem (ctx : ParserContext) (txt : List Char)
    (lt : Option String) (dt : IriNode) (ty : String) :
    (tripleQuoted txt = true →
        literal_to_ObjectLiteral ctx (.rdfLiteral ⟨String.mk txt, lt, none⟩) =
          some { value :=
                   some (String.mk (fix_text_escapes ((txt.drop 3).take (txt.length - 6)) none)),
                 type := none,
                 language := lt.map (fun x => String.mk (pyLower (x.data.drop 1))) })
    ∧ (tripleQuoted txt = true → iri_to_str ctx dt = some ty →
        literal_to_ObjectLiteral ctx (.rdfLiteral ⟨String.mk txt, lt, some dt⟩) =
          some { value :=
                   some (String.mk (fix_text_escapes ((txt.drop 3).take (txt.length - 6)) none)),
                 type := some ty,
                 language := lt.map (fun x => String.mk (pyLower (x.data.drop 1))) })
    ∧ (∀ (q : Char) (body : List Char), txt = q :: body → tripleQuoted txt = false →
        literal_to_ObjectLiteral ctx (.rdfLiteral ⟨String.mk txt, lt, none⟩) =
          some { value :=
                   some (String.mk
                     (fix_text_escapes ((txt.drop 1).take (txt.length - 2)) (some q))),
                 type := none,
                 language := lt.map (fun x => String.mk (pyLower (x.data.drop 1))) })
    ∧ (∀ (q : Char) (body : List Char), txt = q :: body → tripleQuoted txt = false →
        iri_to_str ctx dt = some ty →
        literal_to_ObjectLiteral ctx (.rdfLiteral ⟨String.mk txt, lt, some dt⟩) =
          some { value :=
                   some (String.mk
                     (fix_text_escapes ((txt.drop 1).take (txt.length - 2)) (some q))),
                 type := some ty,
                 language := lt.map (fun x => String.mk (pyLower (x.data.drop 1))) })
    ∧ literal_to_ObjectLiteral ⟨[], [], none⟩
        (.rdfLiteral ⟨"\"\"\"a\\nb\"\"\"", none, none⟩) =
        some { value := some "a\\\nb", type := none, language := none } := by
  refine ⟨?_, ?_, ?_, ?_, by decide⟩
  · intro h
    simp [literal_to_ObjectLiteral, h]
  · intro h hdt
    simp [literal_to_ObjectLiteral, h, hdt]
  · intro q body heq h
    subst heq
    simp [literal_to_ObjectLiteral, h]
  · intro q body heq h hdt
    subst heq
    simp [literal_to_ObjectLiteral, h, hdt]

/-- C2 counterexample: on the triple-quoted input containing backslash-n
the builder yields the value a, backslash, newline, b - not the claimed
a, newline, b. -/
theorem claim_C2_counterexample :
    literal_to_ObjectLiteral ⟨[], [], none⟩
      (.rdfLiteral ⟨"\"\"\"a\\nb\"\"\"", none, none⟩) =
      some { value := some "a\\\nb", type := none, language := none } ∧
    ("a\\\nb" : String) ≠ "a\nb" := by decide

/-- Witness for C2: the amended theorem applied to a concrete triple-quoted
literal with a language tag and a datatype. -/
theorem claim_C2_witness :
    literal_to_ObjectLiteral ⟨[], [], none⟩
      (.rdfLiteral ⟨"'''hi'''", some "@FR", some (.IRIREF "<x:t>")⟩) =
      some { value := some "hi", type := some "x:t", language := some "fr" } := by
  have h := (claim_C2_amended_theorem ⟨[], [], none⟩ "'''hi'''".data (some "@FR")
    (.IRIREF "<x:t>") "x:t").2.1 (by decide) (by decide)
  exact h.trans (by decide)

/-- C9 counterexample: a literal node with none of the three alternatives
populated makes `literal_to_ObjectLiteral` return an ordinary (empty)
record - not the precondition failure the claim demands. -/
theorem claim_C9_counterexample :
    literal_to_ObjectLiteral ⟨[], [], none⟩ .empty =
      some { value := none, type := none, language := none } ∧
    literal_to_ObjectLiteral ⟨[], [], none⟩ .empty ≠ none := by decide

/-- C9 (amended): supplying `literal_to_ObjectLiteral` a literal node whose
expected child alternatives are all absent is not signalled as a failure
of any kind: the function returns normally with an `ObjectLiteral` whose
fields are all unset. -/
theorem claim_C9_amended_theorem (ctx : ParserContext) :
    literal_to_ObjectLiteral ctx .empty =
      some { value := none, type := none, language := none } ∧
    literal_to_ObjectLiteral ctx .empty ≠ none :=
  ⟨rfl, fun h => Option.noConfusion h⟩

/-- C10: on a literal node in which none of the three alternatives is
populated, `literal_to_ObjectLiteral` returns, without raising, an
`ObjectLiteral` whose `value`, `type` and `language` fields are all
unset. -/
theorem claim_C10_theorem (ctx : ParserContext) :
    literal_to_ObjectLiteral ctx .empty =
      some { value := none, type := none, language := none } :=
  rfl
